import Mathlib

/-!
# Verification of the WebClicker automation loop

A shallow embedding, in Lean 4, of `webclicker_auto_fixed.py`: the DOM
inspection heuristics (`is_poll_active`, `get_answer_choices`), the login
step (`login`), the random answer click (`select_random_answer`) and the
main polling loop of `WebclickerAutomator.run`.

The browser driver is modelled as a snapshot capability, following the
design notes of the specification: a DOM snapshot is a list of element
handles, each exposing its tag, text, class attribute and the attributes
the script reads (`data-choice`, `type`, `placeholder`).  Queries that can
raise inside the driver are modelled by an `Except`-valued query record
(`FallibleDOM`).
-/

namespace Webclicker

/-! ## Python string primitives

`str.strip`, `str.lower`, the `in` substring test and the truthiness of
`x or y` on optional strings, as used by the script. -/

/-- ASCII whitespace, the characters `str.strip` removes in the inputs
the script handles. -/
def isSpaceChar (c : Char) : Bool :=
  c == ' ' || c == '\t' || c == '\n' || c == '\r'

/-- Python `str.strip()`: remove leading and trailing whitespace. -/
def pyStrip (s : String) : String :=
  ⟨((s.data.dropWhile isSpaceChar).reverse.dropWhile isSpaceChar).reverse⟩

/-- Python `str.lower()` (ASCII case fold, which covers the literals the
script compares against). -/
def pyLower (s : String) : String :=
  ⟨s.data.map Char.toLower⟩

/-- `leadMatch needle hay`: does `hay` start with `needle`? -/
def leadMatch : List Char → List Char → Bool
  | [], _ => true
  | _ :: _, [] => false
  | a :: as, b :: bs => a == b && leadMatch as bs

/-- Does `needle` occur as a contiguous run inside `hay`? -/
def containsSub (needle : List Char) : List Char → Bool
  | [] => leadMatch needle []
  | c :: rest => leadMatch needle (c :: rest) || containsSub needle rest

/-- Python `needle in hay` on strings (substring test); also the XPath
`contains(text(), ...)` predicate the script uses. -/
def strContains (hay needle : String) : Bool :=
  containsSub needle.data hay.data

/-- Python `a or b` where `a` is an optional string (`None` and `""` are
falsy): `element.get_attribute(x) or y`. -/
def pyOrStr (a : Option String) (b : String) : String :=
  match a with
  | none => b
  | some s => if s == "" then b else s

/-- Python truthiness of an optional string: `None` and `""` are falsy. -/
def pyTruthy : Option String → Bool
  | none => false
  | some s => !(s == "")

/-! ## The DOM model -/

/-- An element handle as the script reads it: tag name, visible text,
the `class` attribute, and the three attributes the script queries. -/
structure Element where
  tag : String
  text : String
  className : String
  dataChoice : Option String
  inputType : Option String
  placeholder : Option String
  deriving DecidableEq, Repr

/-- A DOM snapshot: the ordered sequence of elements on the page. -/
structure DOM where
  elements : List Element
  deriving DecidableEq, Repr

/-- `find_elements(By.TAG_NAME, t)` on a snapshot. -/
def findByTag (d : DOM) (t : String) : List Element :=
  d.elements.filter (fun e => e.tag == t)

/-- Class-token membership, for the `.answer-option` CSS selector:
the `class` attribute split on spaces contains the token. -/
def splitTokens : List Char → List Char → List String
  | [], acc => [⟨acc.reverse⟩]
  | c :: rest, acc =>
    if c == ' ' then (⟨acc.reverse⟩ : String) :: splitTokens rest []
    else splitTokens rest (c :: acc)

/-- Does the `class` attribute contain the given class token? -/
def hasClassToken (className token : String) : Bool :=
  (splitTokens className.data []).contains token

/-- The answer-choice CSS selector used by both `is_poll_active` and
`get_answer_choices`:
`button[class*='answer'], .answer-option, button[data-choice]`. -/
def matchesAnswerSelector (e : Element) : Bool :=
  (e.tag == "button" && strContains e.className "answer")
  || hasClassToken e.className "answer-option"
  || (e.tag == "button" && e.dataChoice.isSome)

/-- `find_elements(By.CSS_SELECTOR, "button[class*='answer'], .answer-option,
button[data-choice]")` on a snapshot. -/
def findAnswerCss (d : DOM) : List Element :=
  d.elements.filter matchesAnswerSelector

/-- The literal phrase whose presence marks an inactive poll. -/
def noPollText : String := "No current poll"

/-- `find_elements(By.XPATH, "//*[contains(text(), 'No current poll')]")`. -/
def findNoPoll (d : DOM) : List Element :=
  d.elements.filter (fun e => strContains e.text noPollText)

/-- The recognized answer-label set, hard-coded in the source to
`["A", "B"]` (lines 171 and 200). -/
def recognizedLabels : List String := ["A", "B"]

/-! ## Poll-state detection (`is_poll_active`, lines 149-178) -/

/-- `WebclickerAutomator.is_poll_active` on a snapshot where no query
raises: inactive when any element's text contains "No current poll",
otherwise active when the answer CSS selector matches or some button's
stripped text is in the recognized label set. -/
def is_poll_active (d : DOM) : Bool :=
  match findNoPoll d with
  | _ :: _ => false
  | [] =>
    let answer_buttons := findAnswerCss d
    let letter_buttons :=
      (findByTag d "button").filter (fun b => recognizedLabels.contains (pyStrip b.text))
    answer_buttons.length != 0 || letter_buttons.length != 0

/-- The three driver queries `is_poll_active` and `get_answer_choices`
issue, each of which may raise inside the driver. -/
structure FallibleDOM where
  qNoPoll : Except String (List Element)
  qAnswerCss : Except String (List Element)
  qButtonTag : Except String (List Element)
  deriving Repr

/-- The body of `is_poll_active`'s `try` block over fallible queries,
with the driver's exception propagation explicit. -/
def isPollActiveBody (d : FallibleDOM) : Except String Bool :=
  match d.qNoPoll with
  | .error e => .error e
  | .ok (_ :: _) => .ok false
  | .ok [] =>
    match d.qAnswerCss with
    | .error e => .error e
    | .ok answer_buttons =>
      match d.qButtonTag with
      | .error e => .error e
      | .ok btns =>
        let letter_buttons :=
          btns.filter (fun b => recognizedLabels.contains (pyStrip b.text))
        .ok (answer_buttons.length != 0 || letter_buttons.length != 0)

/-- `is_poll_active` with its `try/except` wrapper: any exception during
DOM inspection yields `false`. -/
def is_poll_active_f (d : FallibleDOM) : Bool :=
  match isPollActiveBody d with
  | .ok b => b
  | .error _ => false

/-! ## Choice enumeration (`get_answer_choices`, lines 180-212) -/

/-- The per-element step of the primary strategy:
`choice_id = element.get_attribute("data-choice") or element.text.strip()`,
kept only when `choice_id` is truthy (non-empty). -/
def primaryChoice (e : Element) : Option (Element × String) :=
  let choice_id := pyOrStr e.dataChoice (pyStrip e.text)
  if choice_id == "" then none else some (e, choice_id)

/-- The per-button step of the fallback strategy: keep the button when its
stripped text is one of the recognized labels, paired with that text. -/
def fallbackChoice (b : Element) : Option (Element × String) :=
  let button_text := pyStrip b.text
  if recognizedLabels.contains button_text then some (b, button_text) else none

/-- `WebclickerAutomator.get_answer_choices` on a snapshot where no query
raises: the CSS-selector strategy first; only when it yields nothing, the
button-text fallback. -/
def get_answer_choices (d : DOM) : List (Element × String) :=
  match findAnswerCss d with
  | [] => (findByTag d "button").filterMap fallbackChoice
  | e :: es => (e :: es).filterMap primaryChoice

/-- The body of `get_answer_choices`'s `try` block over fallible queries
(the button query is only issued when the CSS query yields nothing). -/
def getAnswerChoicesBody (d : FallibleDOM) : Except String (List (Element × String)) :=
  match d.qAnswerCss with
  | .error e => .error e
  | .ok (e :: es) => .ok ((e :: es).filterMap primaryChoice)
  | .ok [] =>
    match d.qButtonTag with
    | .error e => .error e
    | .ok btns => .ok (btns.filterMap fallbackChoice)

/-- `get_answer_choices` with its `try/except` wrapper: any exception
during enumeration yields the empty list. -/
def get_answer_choices_f (d : FallibleDOM) : List (Element × String) :=
  match getAnswerChoicesBody d with
  | .ok cs => cs
  | .error _ => []

/-! ## Random selection and click (`select_random_answer`, lines 214-230) -/

/-- `WebclickerAutomator.select_random_answer`.  `random.choice` is
modelled by an oracle index `k`: the chosen entry is `choices[k % len]`,
which ranges over exactly the members of the list.  `click` is the
driver's click action, which may raise; the script invokes it inside a
`try/except`, so the function returns the list of click invocations it
performed, each with the outcome the driver reported, and never
propagates.  On an empty list it logs and returns without clicking. -/
def select_random_answer (click : Element → Except String Unit) (k : Nat)
    (choices : List (Element × String)) : List (Element × Except String Unit) :=
  match choices with
  | [] => []
  | c :: cs =>
    let l := c :: cs
    let random_choice := l.get ⟨k % l.length, Nat.mod_lt k (Nat.succ_pos cs.length)⟩
    [(random_choice.1, click random_choice.1)]

/-! ## Login (`login`, lines 101-147) -/

/-- A side effect the login step performs on the page. -/
inductive LoginAction where
  | fillUser (e : Element)
  | fillPass (e : Element)
  | clickLogin (e : Element)
  deriving DecidableEq, Repr

/-- Observable outcome of `login`: the returned boolean, the number of
`find_elements` driver queries issued, and the fill/click actions. -/
structure LoginResult where
  returned : Bool
  domQueries : Nat
  actions : List LoginAction
  deriving DecidableEq, Repr

/-- The username-field heuristic of the classification loop (line 122):
`input_type == "text" or "user" in placeholder.lower() or "email" in
placeholder.lower()`. -/
def usernameCand (e : Element) : Bool :=
  let placeholder := pyLower (pyOrStr e.placeholder "")
  e.inputType == some "text" || strContains placeholder "user"
    || strContains placeholder "email"

/-- The password-field heuristic (line 124):
`input_type == "password" or "password" in placeholder.lower()`. -/
def passwordCand (e : Element) : Bool :=
  let placeholder := pyLower (pyOrStr e.placeholder "")
  e.inputType == some "password" || strContains placeholder "password"

/-- The classification loop over the input elements (lines 118-125):
each input overwrites the username slot when the username heuristic
matches, else the password slot when the password heuristic matches, so
the last match wins. -/
def scanFields (inputs : List Element) : Option Element × Option Element :=
  inputs.foldl
    (fun acc e =>
      if usernameCand e then (some e, acc.2)
      else if passwordCand e then (acc.1, some e)
      else acc)
    (none, none)

/-- The login-button heuristic (line 131): `"login" in button_text or
"sign in" in button_text or "submit" in button_text` on lowered text. -/
def loginButtonCand (b : Element) : Bool :=
  let button_text := pyLower b.text
  strContains button_text "login" || strContains button_text "sign in"
    || strContains button_text "submit"

/-- The button loop (lines 128-132): the last matching button wins. -/
def findLoginButton (buttons : List Element) : Option Element :=
  buttons.foldl (fun acc b => if loginButtonCand b then some b else acc) none

/-- `WebclickerAutomator.login`.  With a missing (or empty) credential it
returns at once: no query, no action.  Otherwise it issues the two
`find_elements` queries, classifies, and fills and clicks only when all
three elements were found. -/
def login (username password : Option String) (d : DOM) : LoginResult :=
  if !(pyTruthy username && pyTruthy password) then
    { returned := false, domQueries := 0, actions := [] }
  else
    let login_elements := findByTag d "input"
    let fields := scanFields login_elements
    let buttons := findByTag d "button"
    let login_button := findLoginButton buttons
    match fields.1, fields.2, login_button with
    | some uf, some pf, some lb =>
      { returned := true, domQueries := 2
        actions := [.fillUser uf, .fillPass pf, .clickLogin lb] }
    | _, _, _ => { returned := false, domQueries := 2, actions := [] }

/-! ## The main loop (`run`, lines 240-259) -/

/-- One loop iteration's observation: what `is_poll_active` reported and
what `get_answer_choices` would return for this snapshot. -/
structure Obs where
  active : Bool
  choices : List (Element × String)
  deriving DecidableEq, Repr

/-- The body of one `while True` iteration, carrying the `poll_answered`
flag; returns the new flag and the number of click attempts made
(`select_random_answer` calls on a non-empty list). -/
def loopStep (poll_answered : Bool) (o : Obs) : Bool × Nat :=
  if o.active then
    if !poll_answered then
      match o.choices with
      | _ :: _ => (true, 1)
      | [] => (poll_answered, 0)
    else (poll_answered, 0)
  else
    (false, 0)

/-- Run the loop over a finite observation trace from a given flag value;
returns the final flag and the total number of click attempts. -/
def runLoop (poll_answered : Bool) : List Obs → Bool × Nat
  | [] => (poll_answered, 0)
  | o :: rest =>
    let s := loopStep poll_answered o
    let r := runLoop s.1 rest
    (r.1, s.2 + r.2)

/-- One iteration with the click outcome made explicit: when a poll is
active, unanswered, and choices exist, the script calls
`select_random_answer` (which records its click invocations and their
outcomes) and then sets `poll_answered = True` unconditionally. -/
def loopStepFull (click : Element → Except String Unit) (k : Nat)
    (poll_answered : Bool) (o : Obs) : Bool × List (Element × Except String Unit) :=
  if o.active then
    if !poll_answered then
      match o.choices with
      | c :: cs => (true, select_random_answer click k (c :: cs))
      | [] => (poll_answered, [])
    else (poll_answered, [])
  else
    (false, [])

/-! ## Helper lemmas -/

/-- When the CSS query finds something, `get_answer_choices` maps the
primary strategy over its results. -/
lemma get_answer_choices_primary (d : DOM) (h : findAnswerCss d ≠ []) :
    get_answer_choices d = (findAnswerCss d).filterMap primaryChoice := by
  unfold get_answer_choices
  cases hc : findAnswerCss d with
  | nil => exact absurd hc h
  | cons e es => rfl

/-- When the CSS query finds nothing, `get_answer_choices` maps the
button-text fallback over the button query. -/
lemma get_answer_choices_fallback (d : DOM) (h : findAnswerCss d = []) :
    get_answer_choices d = (findByTag d "button").filterMap fallbackChoice := by
  unfold get_answer_choices
  rw [h]

/-- A true `poll_answered` flag after one iteration means the iteration's
observation was active. -/
lemma loopStep_flag_active (a : Bool) (o : Obs) (h : (loopStep a o).1 = true) :
    o.active = true := by
  by_contra hna
  have hfalse : o.active = false := by
    cases hoa : o.active
    · rfl
    · exact absurd hoa hna
  rw [loopStep, hfalse] at h
  simp at h

/-- A true flag at the end of a run means the trace is nonempty and ends
in an active observation, or the run was empty and started true. -/
lemma runLoop_flag_last (trace : List Obs) : ∀ a : Bool, (runLoop a trace).1 = true →
    (trace = [] ∧ a = true) ∨ ∃ o, trace.getLast? = some o ∧ o.active = true := by
  induction trace with
  | nil => intro a h; exact Or.inl ⟨rfl, h⟩
  | cons o rest ih =>
    intro a h
    have h2 : (runLoop (loopStep a o).1 rest).1 = true := h
    rcases ih (loopStep a o).1 h2 with ⟨hre, hfl⟩ | ⟨o2, hlast, hact⟩
    · subst hre
      exact Or.inr ⟨o, rfl, loopStep_flag_active a o hfl⟩
    · refine Or.inr ⟨o2, ?_, hact⟩
      cases rest with
      | nil => simp at hlast
      | cons o3 rest2 => rw [List.getLast?_cons_cons]; exact hlast

/-! ## Claim theorems -/

/-- Claim C2: whenever the snapshot contains an element whose text
contains the literal phrase "No current poll", `is_poll_active` returns
`false`, whatever other answer-like elements the snapshot holds. -/
theorem is_poll_active_no_poll_inactive (d : DOM)
    (h : ∃ e ∈ d.elements, strContains e.text noPollText = true) :
    is_poll_active d = false := by
  obtain ⟨e, he, hc⟩ := h
  have hmem : e ∈ findNoPoll d := List.mem_filter.mpr ⟨he, hc⟩
  unfold is_poll_active
  cases hnp : findNoPoll d with
  | nil => rw [hnp] at hmem; cases hmem
  | cons a l => rfl

theorem is_poll_active_no_poll_inactive_witness :
    is_poll_active ⟨[⟨"div", "No current poll", "", none, none, none⟩,
      ⟨"button", "A", "answer-option", some "A", none, none⟩]⟩ = false :=
  is_poll_active_no_poll_inactive _
    ⟨⟨"div", "No current poll", "", none, none, none⟩, by decide, by decide⟩

/-- Claim C3: with no "No current poll" text anywhere, the presence of an
element matching the answer-choice CSS selector, or of a button whose
stripped text is a recognized label, makes `is_poll_active` return
`true`. -/
theorem is_poll_active_active_cases (d : DOM)
    (hno : ∀ e ∈ d.elements, strContains e.text noPollText = false)
    (hact : (∃ e ∈ d.elements, matchesAnswerSelector e = true)
      ∨ ∃ b ∈ d.elements, b.tag = "button"
          ∧ recognizedLabels.contains (pyStrip b.text) = true) :
    is_poll_active d = true := by
  have hnp : findNoPoll d = [] := by
    apply List.filter_eq_nil_iff.mpr
    intro a ha
    simp [hno a ha]
  unfold is_poll_active
  rw [hnp]
  rcases hact with ⟨e, he, hm⟩ | ⟨b, hb, htag, hlab⟩
  · have hmem : e ∈ findAnswerCss d := List.mem_filter.mpr ⟨he, hm⟩
    have hlen : (findAnswerCss d).length ≠ 0 := by
      simpa [List.length_eq_zero] using List.ne_nil_of_mem hmem
    simp [hlen]
  · have hbtn : b ∈ findByTag d "button" :=
      List.mem_filter.mpr ⟨hb, by simp [htag]⟩
    simp
    exact Or.inr ⟨b, hbtn, by simpa using hlab⟩

theorem is_poll_active_active_cases_witness :
    is_poll_active ⟨[⟨"button", " A ", "", none, none, none⟩]⟩ = true :=
  is_poll_active_active_cases _
    (by decide)
    (Or.inr ⟨⟨"button", " A ", "", none, none, none⟩, by decide, by decide, by decide⟩)

/-- Claim C4: `is_poll_active` never propagates an exception from DOM
inspection; whichever of its three driver queries raises, the caught
exception makes the result `false`. -/
theorem is_poll_active_fail_safe :
    (∀ (d : FallibleDOM) (msg : String),
      d.qNoPoll = .error msg → is_poll_active_f d = false)
    ∧ (∀ (d : FallibleDOM) (msg : String),
      d.qNoPoll = .ok [] → d.qAnswerCss = .error msg → is_poll_active_f d = false)
    ∧ (∀ (d : FallibleDOM) (msg : String) (l : List Element),
      d.qNoPoll = .ok [] → d.qAnswerCss = .ok l → d.qButtonTag = .error msg →
      is_poll_active_f d = false) := by
  refine ⟨?_, ?_, ?_⟩
  · intro d msg h1
    simp [is_poll_active_f, isPollActiveBody, h1]
  · intro d msg h1 h2
    simp [is_poll_active_f, isPollActiveBody, h1, h2]
  · intro d msg l h1 h2 h3
    simp [is_poll_active_f, isPollActiveBody, h1, h2, h3]

theorem is_poll_active_fail_safe_witness :
    is_poll_active_f ⟨.error "no such window", .ok [], .ok []⟩ = false
    ∧ is_poll_active_f ⟨.ok [], .error "stale", .ok []⟩ = false
    ∧ is_poll_active_f ⟨.ok [], .ok [⟨"button", "A", "answer", none, none, none⟩],
        .error "stale"⟩ = false :=
  ⟨is_poll_active_fail_safe.1 _ "no such window" rfl,
   is_poll_active_fail_safe.2.1 _ "stale" rfl rfl,
   is_poll_active_fail_safe.2.2 _ "stale" _ rfl rfl rfl⟩

/-- Claim C5: on a non-empty choice list, `select_random_answer` invokes
the click action exactly once, on an element of the input list, for every
possible random draw. -/
theorem select_random_answer_clicks_once (click : Element → Except String Unit)
    (k : Nat) (choices : List (Element × String)) (h : choices ≠ []) :
    (select_random_answer click k choices).length = 1
    ∧ ∀ p ∈ select_random_answer click k choices, ∃ lab, (p.1, lab) ∈ choices := by
  cases choices with
  | nil => exact absurd rfl h
  | cons c cs =>
    refine ⟨rfl, ?_⟩
    intro p hp
    have hlt : k % (c :: cs).length < (c :: cs).length :=
      Nat.mod_lt k (Nat.succ_pos cs.length)
    have hma : (c :: cs).get ⟨k % (c :: cs).length, hlt⟩ ∈ c :: cs :=
      List.get_mem (c :: cs) (k % (c :: cs).length) hlt
    have hp2 : p ∈ [(((c :: cs).get ⟨k % (c :: cs).length, hlt⟩).1,
        click ((c :: cs).get ⟨k % (c :: cs).length, hlt⟩).1)] := hp
    have hp3 := List.mem_singleton.mp hp2
    rw [hp3]
    exact ⟨((c :: cs).get ⟨k % (c :: cs).length, hlt⟩).2, hma⟩

theorem select_random_answer_clicks_once_witness :
    (select_random_answer (fun _ => .ok ()) 7
      [(⟨"button", "A", "", none, none, none⟩, "A"),
       (⟨"button", "B", "", none, none, none⟩, "B")]).length = 1 :=
  (select_random_answer_clicks_once (fun _ => .ok ()) 7 _ (by decide)).1

/-- Claim C6: `select_random_answer` performs zero clicks and returns
normally on the empty list; and when the click action raises, the
exception is caught: the call still returns its one recorded invocation
rather than propagating. -/
theorem select_random_answer_never_raises :
    (∀ (click : Element → Except String Unit) (k : Nat),
      select_random_answer click k [] = [])
    ∧ (∀ (k : Nat) (msg : String) (choices : List (Element × String)), choices ≠ [] →
      ∃ e, select_random_answer (fun _ => .error msg) k choices = [(e, .error msg)]) := by
  refine ⟨fun _ _ => rfl, ?_⟩
  intro k msg choices h
  cases choices with
  | nil => exact absurd rfl h
  | cons c cs => exact ⟨_, rfl⟩

theorem select_random_answer_never_raises_witness :
    select_random_answer (fun _ => .ok ()) 3 [] = []
    ∧ ∃ e, select_random_answer (fun _ => .error "not interactable") 0
      [(⟨"button", "A", "", none, none, none⟩, "A")]
        = [(e, .error "not interactable")] :=
  ⟨select_random_answer_never_raises.1 _ 3,
   select_random_answer_never_raises.2 0 "not interactable" _ (by decide)⟩

/-- Claim C7: the fallback runs only when the CSS strategy finds nothing;
the fallback keeps exactly the buttons whose stripped text is a
recognized label ("A" or "B"); empty labels never appear; and a raising
enumeration yields the empty list. -/
theorem get_answer_choices_spec :
    (∀ d : DOM, findAnswerCss d ≠ [] →
      ∀ p ∈ get_answer_choices d, p.1 ∈ d.elements ∧ matchesAnswerSelector p.1 = true)
    ∧ (∀ d : DOM, findAnswerCss d = [] →
      ∀ p : Element × String, p ∈ get_answer_choices d ↔
        p.1 ∈ findByTag d "button"
          ∧ recognizedLabels.contains (pyStrip p.1.text) = true
          ∧ p.2 = pyStrip p.1.text)
    ∧ (∀ (d : DOM) (p : Element × String), p ∈ get_answer_choices d → p.2 ≠ "")
    ∧ (∀ (d : FallibleDOM) (msg : String), d.qAnswerCss = .error msg →
      get_answer_choices_f d = [])
    ∧ (∀ (d : FallibleDOM) (msg : String), d.qAnswerCss = .ok [] →
      d.qButtonTag = .error msg → get_answer_choices_f d = []) := by
  have hprim : ∀ (a : Element) (p : Element × String), primaryChoice a = some p →
      p.1 = a ∧ p.2 = pyOrStr a.dataChoice (pyStrip a.text) ∧ p.2 ≠ "" := by
    intro a p hfa
    by_cases hcid : (pyOrStr a.dataChoice (pyStrip a.text) == "") = true
    · simp [primaryChoice, hcid] at hfa
    · simp [primaryChoice, hcid] at hfa
      refine ⟨by rw [← hfa], by rw [← hfa], ?_⟩
      rw [← hfa]
      simpa using hcid
  have hfall : ∀ (b : Element) (p : Element × String), fallbackChoice b = some p →
      recognizedLabels.contains (pyStrip b.text) = true ∧ p.1 = b
        ∧ p.2 = pyStrip b.text := by
    intro b p h
    simp only [fallbackChoice] at h
    cases hl2 : recognizedLabels.contains (pyStrip b.text) with
    | false => rw [hl2] at h; simp at h
    | true =>
      rw [hl2] at h
      simp at h
      exact ⟨rfl, by rw [← h], by rw [← h]⟩
  have hfall2 : ∀ b : Element, recognizedLabels.contains (pyStrip b.text) = true →
      fallbackChoice b = some (b, pyStrip b.text) := by
    intro b hl
    simp only [fallbackChoice]
    rw [hl]
    simp
  refine ⟨?_, ?_, ?_, ?_, ?_⟩
  · intro d h p hp
    rw [get_answer_choices_primary d h] at hp
    obtain ⟨a, ha, hfa⟩ := List.mem_filterMap.mp hp
    obtain ⟨h1, _, _⟩ := hprim a p hfa
    obtain ⟨hael, hasel⟩ := List.mem_filter.mp ha
    exact ⟨h1 ▸ hael, h1 ▸ hasel⟩
  · intro d h p
    rw [get_answer_choices_fallback d h]
    rw [List.mem_filterMap]
    constructor
    · intro ⟨a, ha, hfa⟩
      obtain ⟨hl, h1, h2⟩ := hfall a p hfa
      exact ⟨h1 ▸ ha, h1 ▸ hl, h1 ▸ h2⟩
    · intro ⟨hmem, hl, h2⟩
      refine ⟨p.1, hmem, ?_⟩
      rw [hfall2 p.1 hl, ← h2]
  · intro d p hp
    cases hc : findAnswerCss d with
    | nil =>
      rw [get_answer_choices_fallback d hc] at hp
      obtain ⟨a, _, hfa⟩ := List.mem_filterMap.mp hp
      obtain ⟨hl, _, h2⟩ := hfall a p hfa
      rw [h2]
      intro hemp
      rw [hemp] at hl
      simp [recognizedLabels] at hl
    | cons e es =>
      rw [get_answer_choices_primary d (by rw [hc]; exact List.cons_ne_nil e es)] at hp
      obtain ⟨a, _, hfa⟩ := List.mem_filterMap.mp hp
      exact (hprim a p hfa).2.2
  · intro d msg h
    simp [get_answer_choices_f, getAnswerChoicesBody, h]
  · intro d msg h1 h2
    simp [get_answer_choices_f, getAnswerChoicesBody, h1, h2]

theorem get_answer_choices_spec_witness :
    get_answer_choices_f ⟨.ok [], .error "boom", .ok []⟩ = []
    ∧ ((⟨"button", " A ", "", none, none, none⟩ : Element), "A") ∈
        get_answer_choices ⟨[⟨"button", " A ", "", none, none, none⟩]⟩ :=
  ⟨get_answer_choices_spec.2.2.2.1 _ "boom" rfl,
   (get_answer_choices_spec.2.1 _ (by decide) _).mpr ⟨by decide, by decide, by decide⟩⟩

/-- Claim C8: with either credential missing (or empty, which the
script's truthiness test also treats as missing), `login` returns at
once: `False`, zero driver queries, no page effects. -/
theorem login_skip_no_credentials (username password : Option String) (d : DOM)
    (h : pyTruthy username = false ∨ pyTruthy password = false) :
    login username password d = ⟨false, 0, []⟩ := by
  unfold login
  rcases h with h | h <;> simp [h]

theorem login_skip_no_credentials_witness :
    login none (some "secret") ⟨[⟨"input", "", "", none, some "text", none⟩,
      ⟨"button", "Login", "", none, none, none⟩]⟩ = ⟨false, 0, []⟩ :=
  login_skip_no_credentials none (some "secret") _ (Or.inl rfl)

/-- With both credentials present, `login` reduces to the classification
of the two tag queries. -/
lemma login_with_creds (username password : Option String) (d : DOM)
    (hu : pyTruthy username = true) (hp : pyTruthy password = true) :
    login username password d =
      match (scanFields (findByTag d "input")).1, (scanFields (findByTag d "input")).2,
          findLoginButton (findByTag d "button") with
      | some uf, some pf, some lb =>
        ⟨true, 2, [.fillUser uf, .fillPass pf, .clickLogin lb]⟩
      | _, _, _ => ⟨false, 2, []⟩ := by
  unfold login
  simp [hu, hp]

/-- Claim C9, counterexample: a page with two inputs matching the
username heuristic (so "more than one candidate"), one password input and
one login button.  `login` does not return "not attempted": it fills the
fields (using the last username candidate) and clicks. -/
theorem login_ambiguity_counterexample :
    ((findByTag ⟨[⟨"input", "", "", none, some "text", none⟩,
        ⟨"input", "", "", none, none, some "User name"⟩,
        ⟨"input", "", "", none, some "password", none⟩,
        ⟨"button", "Login", "", none, none, none⟩]⟩ "input").filter usernameCand).length = 2
    ∧ (login (some "alice") (some "pw") ⟨[⟨"input", "", "", none, some "text", none⟩,
        ⟨"input", "", "", none, none, some "User name"⟩,
        ⟨"input", "", "", none, some "password", none⟩,
        ⟨"button", "Login", "", none, none, none⟩]⟩).returned = true
    ∧ (login (some "alice") (some "pw") ⟨[⟨"input", "", "", none, some "text", none⟩,
        ⟨"input", "", "", none, none, some "User name"⟩,
        ⟨"input", "", "", none, some "password", none⟩,
        ⟨"button", "Login", "", none, none, none⟩]⟩).actions ≠ [] := by
  refine ⟨by decide, by decide, by decide⟩

/-- Claim C9 as amended: with both credentials present, `login` returns
`False` with no fill or click exactly when one of the three slots ends
the classification loops unfilled (zero candidates for that slot, with a
both-heuristics input counting as username); with several candidates the
loops keep the last match and `login` proceeds to fill it and click. -/
theorem login_zero_candidate_not_attempted (username password : Option String)
    (d : DOM) (hu : pyTruthy username = true) (hp : pyTruthy password = true) :
    (((scanFields (findByTag d "input")).1 = none
        ∨ (scanFields (findByTag d "input")).2 = none
        ∨ findLoginButton (findByTag d "button") = none) →
      (login username password d).returned = false
        ∧ (login username password d).actions = [])
    ∧ ∀ uf pf lb,
        (scanFields (findByTag d "input")).1 = some uf →
        (scanFields (findByTag d "input")).2 = some pf →
        findLoginButton (findByTag d "button") = some lb →
        login username password d =
          ⟨true, 2, [.fillUser uf, .fillPass pf, .clickLogin lb]⟩ := by
  constructor
  · intro h
    rw [login_with_creds username password d hu hp]
    rcases hx : (scanFields (findByTag d "input")).1 with _ | uf <;>
      rcases hy : (scanFields (findByTag d "input")).2 with _ | pf <;>
        rcases hz : findLoginButton (findByTag d "button") with _ | lb <;>
          simp_all
  · intro uf pf lb hx hy hz
    rw [login_with_creds username password d hu hp, hx, hy, hz]

theorem login_zero_candidate_not_attempted_witness :
    (login (some "alice") (some "pw")
        ⟨[⟨"button", "Login", "", none, none, none⟩]⟩).returned = false
    ∧ (login (some "alice") (some "pw")
        ⟨[⟨"button", "Login", "", none, none, none⟩]⟩).actions = [] :=
  (login_zero_candidate_not_attempted (some "alice") (some "pw") _
    (by decide) (by decide)).1 (Or.inl (by decide))

/-- Claim C1: over any observation trace whose active observations come
with a non-empty choice list, (a) the sequence inactive, active, active,
inactive, active produces exactly 2 click attempts; (b) the answered flag
is true only while the most recently observed poll state is active;
(c) the flag resets exactly on the active-to-inactive transition:
an inactive observation clears it, an active one keeps it set. -/
theorem loop_answered_flag_spec :
    (∀ c2 c3 c5 : List (Element × String), c2 ≠ [] → c3 ≠ [] → c5 ≠ [] →
      runLoop false [⟨false, []⟩, ⟨true, c2⟩, ⟨true, c3⟩, ⟨false, []⟩, ⟨true, c5⟩]
        = (true, 2))
    ∧ (∀ trace : List Obs, (∀ o ∈ trace, o.active = true → o.choices ≠ []) →
        (runLoop false trace).1 = true →
        ∃ o, trace.getLast? = some o ∧ o.active = true)
    ∧ (∀ cs : List (Element × String), loopStep true ⟨false, cs⟩ = (false, 0))
    ∧ (∀ cs : List (Element × String), loopStep true ⟨true, cs⟩ = (true, 0)) := by
  refine ⟨?_, ?_, fun _ => rfl, fun _ => rfl⟩
  · intro c2 c3 c5 h2 h3 h5
    cases c2 with
    | nil => exact absurd rfl h2
    | cons a as =>
      cases c5 with
      | nil => exact absurd rfl h5
      | cons b bs => rfl
  · intro trace hchoices hflag
    rcases runLoop_flag_last trace false hflag with ⟨_, hfalse⟩ | hok
    · cases hfalse
    · exact hok

theorem loop_answered_flag_spec_witness :
    runLoop false [⟨false, []⟩,
      ⟨true, [(⟨"button", "A", "", none, none, none⟩, "A")]⟩,
      ⟨true, [(⟨"button", "A", "", none, none, none⟩, "A")]⟩,
      ⟨false, []⟩,
      ⟨true, [(⟨"button", "B", "", none, none, none⟩, "B")]⟩] = (true, 2) :=
  loop_answered_flag_spec.1 _ _ _ (by decide) (by decide) (by decide)

/-- Claim C10: on an active, unanswered poll with a non-empty choice
list, one click is attempted and `poll_answered` is set to `true`
unconditionally — for every click outcome, a failing one included — and
while the flag is set an active observation triggers no further click. -/
theorem answered_flag_set_despite_click_failure
    (click : Element → Except String Unit) (k : Nat) (o : Obs)
    (ha : o.active = true) (hc : o.choices ≠ []) :
    (loopStepFull click k false o).1 = true
    ∧ (loopStepFull click k false o).2.length = 1
    ∧ loopStepFull click k true o = (true, []) := by
  obtain ⟨act, chs⟩ := o
  simp only [] at ha
  cases act with
  | false => cases ha
  | true =>
    cases chs with
    | nil => exact absurd rfl hc
    | cons c cs => exact ⟨rfl, rfl, rfl⟩

theorem answered_flag_set_despite_click_failure_witness :
    (loopStepFull (fun _ => .error "element not interactable") 0 false
      ⟨true, [(⟨"button", "A", "", none, none, none⟩, "A")]⟩).1 = true :=
  (answered_flag_set_despite_click_failure (fun _ => .error "element not interactable")
    0 ⟨true, [(⟨"button", "A", "", none, none, none⟩, "A")]⟩ rfl (by decide)).1

end Webclicker
